import Mathlib

/-!
# Verification of `amazon-ecs-deploy-express-service`

A shallow embedding of the GitHub Action in `src/index.js`.  The action reads
its inputs (GitHub's `core.getInput` returns the empty string for an absent
input), validates the four required inputs, constructs the target service ARN,
checks whether the service exists (`DescribeServices`), builds the SDK request
object (`serviceConfig`), dispatches a create or an update call, and finally
polls (`waitForServiceStable`) until the deployment stabilizes, fails, or a
15-minute wall-clock ceiling elapses.

Remote interaction is modelled by scripting the responses of the ECS endpoint:
`runModel` consumes an `Inputs` record together with a `Script` of remote
responses and produces the trace of remote calls made, the outputs set via
`core.setOutput`, the warnings, and the final result.  JavaScript strings are
Lean `String`s, JavaScript numbers are modelled by `JSNum` (a rational or
`NaN`; IEEE-754 rounding is not modelled, which is irrelevant to the claims
settled here), and `JSON.parse` is modelled by the executable `jsonParse`.
-/

namespace EcsExpress

/-- JavaScript `a || b` on strings: the empty string is the only falsy string. -/
def jsOr (a b : String) : String := if a = "" then b else a

/-- JavaScript `String.prototype.trim`: drop leading and trailing whitespace.
(Implemented on the character list so that the kernel can evaluate it; Lean's
own `String.trim` is defined by well-founded recursion and does not reduce.) -/
def jsTrim (s : String) : String :=
  String.mk (((s.toList.dropWhile Char.isWhitespace).reverse.dropWhile Char.isWhitespace).reverse)

/-- JavaScript `String.prototype.split` with a one-character separator. -/
def jsSplitAux (sep : Char) : List Char → List Char → List String
  | [], acc => [String.mk acc.reverse]
  | c :: rest, acc =>
    if c = sep then String.mk acc.reverse :: jsSplitAux sep rest []
    else jsSplitAux sep rest (c :: acc)

/-- JavaScript `s.split(sep)` for a one-character separator. -/
def jsSplit (sep : Char) (s : String) : List String := jsSplitAux sep s.toList []

/-- JavaScript `String.prototype.startsWith`. -/
def strStartsWith (s pre : String) : Bool := pre.toList.isPrefixOf s.toList

/-- Blankness in the sense of `!s || s.trim() === ''` (`''.trim() = ''`,
so the two disjuncts collapse to one test). -/
def isBlank (s : String) : Bool := jsTrim s = ""

/-- Optional field value: `some s` when the source input is non-blank,
`none` (field omitted) otherwise. -/
def opt (s : String) : Option String := if isBlank s then none else some s

/-- JavaScript `String.prototype.includes`: substring containment. -/
def strIncludes (s sub : String) : Bool := decide (sub.toList <:+: s.toList)

/-- A JavaScript number: a rational or `NaN`.  `parseInt`/`parseFloat` return
`NaN` on unparseable input, and the action stores that result unchanged. -/
inductive JSNum where
  | nan : JSNum
  | num (q : ℚ) : JSNum
deriving DecidableEq, Repr

/-- Numeric value of a list of decimal digit characters. -/
def digitsVal (cs : List Char) : Nat :=
  cs.foldl (fun acc c => acc * 10 + (c.toNat - '0'.toNat)) 0

/-- Split a character list into its longest prefix of decimal digits and the
rest. -/
def takeDigits (cs : List Char) : List Char × List Char :=
  (cs.takeWhile Char.isDigit, cs.dropWhile Char.isDigit)

/-- JavaScript `parseInt(s, 10)`: skip whitespace, optional sign, longest
prefix of decimal digits (trailing garbage ignored); `NaN` when no digit is
found. -/
def jsParseInt (s : String) : JSNum :=
  let cs := (jsTrim s).toList
  let signed : Bool × List Char :=
    match cs with
    | '-' :: rest => (true, rest)
    | '+' :: rest => (false, rest)
    | _ => (false, cs)
  let (digits, _) := takeDigits signed.2
  if digits.isEmpty then .nan
  else
    let n : Int := if signed.1 then -(digitsVal digits : Int) else (digitsVal digits : Int)
    .num (mkRat n 1)

/-- Exact value of a signed decimal literal
`sign intDigits . fracDigits e esign expDigits`, built with a single `mkRat`
so that the kernel can evaluate it. -/
def decValue (neg : Bool) (intDigits fracDigits : List Char)
    (esign : Bool) (expDigits : List Char) : ℚ :=
  let m : Nat := digitsVal (intDigits ++ fracDigits)
  let n : Int := if neg then -(m : Int) else (m : Int)
  let ev : Nat := digitsVal expDigits
  if esign then mkRat n (10 ^ fracDigits.length * 10 ^ ev)
  else mkRat (n * ((10 ^ ev : Nat) : Int)) (10 ^ fracDigits.length)

/-- JavaScript `parseFloat(s)`: skip whitespace, optional sign, decimal
digits with an optional fraction and an optional exponent (trailing garbage
ignored); `NaN` when no digit occurs in the integer or fraction part.
(`Infinity` literals are not modelled.) -/
def jsParseFloat (s : String) : JSNum :=
  let cs := (jsTrim s).toList
  let signed : Bool × List Char :=
    match cs with
    | '-' :: rest => (true, rest)
    | '+' :: rest => (false, rest)
    | _ => (false, cs)
  let (intDigits, rest1) := takeDigits signed.2
  let (fracDigits, rest2) :=
    match rest1 with
    | '.' :: r => takeDigits r
    | _ => ([], rest1)
  if intDigits.isEmpty && fracDigits.isEmpty then .nan
  else
    match rest2 with
    | 'e' :: r | 'E' :: r =>
      let esigned : Bool × List Char :=
        match r with
        | '-' :: er => (true, er)
        | '+' :: er => (false, er)
        | _ => (false, r)
      let (expDigits, _) := takeDigits esigned.2
      if expDigits.isEmpty then .num (decValue signed.1 intDigits fracDigits false [])
      else .num (decValue signed.1 intDigits fracDigits esigned.1 expDigits)
    | _ => .num (decValue signed.1 intDigits fracDigits false [])

/-! A model of `JSON.parse`.

The action parses the `environment-variables`, `secrets`, `command` and
(bracketed) `tags` inputs with `JSON.parse` and stores the parsed value
unchanged.  `Json` is the value domain and `jsonParse` an executable parser;
parse-error message texts differ from V8's, which no settled claim depends
on. -/

/-- A JSON value (the result of `JSON.parse`). -/
inductive Json where
  | null : Json
  | bool (b : Bool) : Json
  | num (q : ℚ) : Json
  | str (s : String) : Json
  | arr (elems : List Json) : Json
  | obj (members : List (String × Json)) : Json

/-- JSON insignificant whitespace. -/
def jsonWs (c : Char) : Bool := c = ' ' || c = '\t' || c = '\n' || c = '\r'

/-- Drop leading JSON whitespace. -/
def skipWs (cs : List Char) : List Char := cs.dropWhile jsonWs

/-- Value of a hexadecimal digit. -/
def hexVal (c : Char) : Option Nat :=
  if c.isDigit then some (c.toNat - '0'.toNat)
  else if 'a' ≤ c ∧ c ≤ 'f' then some (c.toNat - 'a'.toNat + 10)
  else if 'A' ≤ c ∧ c ≤ 'F' then some (c.toNat - 'A'.toNat + 10)
  else none

/-- Parse the body of a JSON string (the opening quote already consumed),
accumulating characters until the closing quote. -/
def pJStringAux : Nat → List Char → List Char → Option (String × List Char)
  | 0, _, _ => none
  | _ + 1, _, [] => none
  | _ + 1, acc, '"' :: rest => some (String.mk acc.reverse, rest)
  | fuel + 1, acc, '\\' :: esc =>
    match esc with
    | '"' :: rest => pJStringAux fuel ('"' :: acc) rest
    | '\\' :: rest => pJStringAux fuel ('\\' :: acc) rest
    | '/' :: rest => pJStringAux fuel ('/' :: acc) rest
    | 'b' :: rest => pJStringAux fuel ('\x08' :: acc) rest
    | 'f' :: rest => pJStringAux fuel ('\x0c' :: acc) rest
    | 'n' :: rest => pJStringAux fuel ('\n' :: acc) rest
    | 'r' :: rest => pJStringAux fuel ('\r' :: acc) rest
    | 't' :: rest => pJStringAux fuel ('\t' :: acc) rest
    | 'u' :: h1 :: h2 :: h3 :: h4 :: rest =>
      match hexVal h1, hexVal h2, hexVal h3, hexVal h4 with
      | some a, some b, some c, some d =>
        pJStringAux fuel (Char.ofNat (((a * 16 + b) * 16 + c) * 16 + d) :: acc) rest
      | _, _, _, _ => none
    | _ => none
  | fuel + 1, acc, c :: rest => pJStringAux fuel (c :: acc) rest

/-- Parse a JSON string starting at its opening-quote successor. -/
def pJString (cs : List Char) : Option (String × List Char) :=
  pJStringAux (cs.length + 1) [] cs

/-- Parse a JSON number. -/
def pJNumber (cs : List Char) : Option (ℚ × List Char) :=
  let signed : Bool × List Char :=
    match cs with
    | '-' :: rest => (true, rest)
    | _ => (false, cs)
  let (intDigits, rest1) := takeDigits signed.2
  if intDigits.isEmpty then none
  else
    let fracStep : Option (List Char × List Char) :=
      match rest1 with
      | '.' :: r =>
        let (d, rest) := takeDigits r
        if d.isEmpty then none else some (d, rest)
      | _ => some ([], rest1)
    match fracStep with
    | none => none
    | some (fracDigits, rest2) =>
      let expStep : Option ((Bool × List Char) × List Char) :=
        match rest2 with
        | 'e' :: r | 'E' :: r =>
          let esigned : Bool × List Char :=
            match r with
            | '-' :: er => (true, er)
            | '+' :: er => (false, er)
            | _ => (false, r)
          let (ed, rest) := takeDigits esigned.2
          if ed.isEmpty then none else some ((esigned.1, ed), rest)
        | _ => some ((false, []), rest2)
      match expStep with
      | none => none
      | some (ex, rest3) =>
        some (decValue signed.1 intDigits fracDigits ex.1 ex.2, rest3)

mutual

/-- Parse one JSON value. -/
def pJVal : Nat → List Char → Option (Json × List Char)
  | 0, _ => none
  | fuel + 1, cs =>
    match skipWs cs with
    | '{' :: rest =>
      (match skipWs rest with
       | '}' :: r2 => some (.obj [], r2)
       | rest' =>
         match pJMembers fuel rest' with
         | some (ms, r2) => some (.obj ms, r2)
         | none => none)
    | '[' :: rest =>
      (match skipWs rest with
       | ']' :: r2 => some (.arr [], r2)
       | rest' =>
         match pJElems fuel rest' with
         | some (vs, r2) => some (.arr vs, r2)
         | none => none)
    | '"' :: rest =>
      (match pJString rest with
       | some (s, r2) => some (.str s, r2)
       | none => none)
    | 't' :: 'r' :: 'u' :: 'e' :: r => some (.bool true, r)
    | 'f' :: 'a' :: 'l' :: 's' :: 'e' :: r => some (.bool false, r)
    | 'n' :: 'u' :: 'l' :: 'l' :: r => some (.null, r)
    | cs' =>
      match pJNumber cs' with
      | some (q, r) => some (.num q, r)
      | none => none

/-- Parse the comma-separated elements of a non-empty JSON array, including
the closing bracket. -/
def pJElems : Nat → List Char → Option (List Json × List Char)
  | 0, _ => none
  | fuel + 1, cs =>
    match pJVal fuel cs with
    | none => none
    | some (v, rest) =>
      match skipWs rest with
      | ',' :: r2 =>
        (match pJElems fuel r2 with
         | some (vs, r3) => some (v :: vs, r3)
         | none => none)
      | ']' :: r2 => some ([v], r2)
      | _ => none

/-- Parse the members of a non-empty JSON object, including the closing
brace. -/
def pJMembers : Nat → List Char → Option (List (String × Json) × List Char)
  | 0, _ => none
  | fuel + 1, cs =>
    match skipWs cs with
    | '"' :: rest =>
      (match pJString rest with
       | none => none
       | some (k, r1) =>
         match skipWs r1 with
         | ':' :: r2 =>
           (match pJVal fuel r2 with
            | none => none
            | some (v, r3) =>
              match skipWs r3 with
              | ',' :: r4 =>
                (match pJMembers fuel r4 with
                 | some (ms, r5) => some ((k, v) :: ms, r5)
                 | none => none)
              | '}' :: r4 => some ([(k, v)], r4)
              | _ => none)
         | _ => none)
    | _ => none

end

/-- Model of `JSON.parse`. -/
def jsonParse (s : String) : Except String Json :=
  match pJVal (2 * s.length + 2) s.toList with
  | some (v, rest) =>
    if (skipWs rest).isEmpty then .ok v
    else .error "Unexpected non-whitespace character after JSON data"
  | none => .error "Unexpected end of JSON input"

/-! Tag parsing (`parseTagsFromJSON`, `parseTagsFromMultiline`). -/

/-- A `key=value` tag produced by the multiline parser. -/
structure Tag where
  key : String
  value : String
deriving DecidableEq, Repr

/-- Model of `parseTagsFromJSON` (src/index.js:20-34): blank input yields `[]`;
otherwise `JSON.parse`, requiring an array (elements are not validated). -/
def parseTagsFromJSON (tagsInput : String) : Except String (List Json) :=
  if isBlank tagsInput then .ok []
  else
    match jsonParse tagsInput with
    | .ok (.arr tags) => .ok tags
    | .ok _ => .error "Invalid tags JSON: Tags must be an array"
    | .error m => .error ("Invalid tags JSON: " ++ m)

/-- One pass of the `for (const line of lines)` loop of
`parseTagsFromMultiline` (src/index.js:50-69). -/
def parseTagLines : List String → Except String (List Tag)
  | [] => .ok []
  | line :: rest =>
    if jsTrim line = "" then parseTagLines rest
    else if ¬ (jsTrim line).toList.contains '=' then
      .error ("Invalid tag format: \"" ++ jsTrim line ++ "\". Expected format: key=value")
    else if jsTrim (String.mk ((jsTrim line).toList.takeWhile (fun c => c ≠ '='))) = "" then
      .error ("Empty tag key in line: \"" ++ jsTrim line ++ "\"")
    else
      (parseTagLines rest).map
        (Tag.mk (jsTrim (String.mk ((jsTrim line).toList.takeWhile (fun c => c ≠ '='))))
          (jsTrim (String.mk (((jsTrim line).toList.dropWhile (fun c => c ≠ '=')).drop 1))) :: ·)

/-- Model of `parseTagsFromMultiline` (src/index.js:42-72): blank input yields `[]`;
otherwise the input is split on newlines and parsed line by line. -/
def parseTagsFromMultiline (tagsInput : String) : Except String (List Tag) :=
  if isBlank tagsInput then .ok []
  else parseTagLines (jsSplit '\n' tagsInput)

/-- The JSON object a multiline tag contributes to the request payload. -/
def tagJson (t : Tag) : Json := .obj [("key", .str t.key), ("value", .str t.value)]

/-- Tag processing in `run` (src/index.js:308-329): blank input is skipped
entirely; input whose trim starts with `[` goes to the JSON parser, anything
else to the multiline parser; the `tags` field is set only when the parsed
list is non-empty; a parse error fails with a `Tag parsing failed:` message. -/
def tagsFieldOf (tags : String) : Except String (Option (List Json)) :=
  if isBlank tags then .ok none
  else
    let parsed : Except String (List Json) :=
      if strStartsWith (jsTrim tags) "[" then parseTagsFromJSON tags
      else (parseTagsFromMultiline tags).map (·.map tagJson)
    match parsed with
    | .ok parsedTags => .ok (if parsedTags.length > 0 then some parsedTags else none)
    | .error m => .error ("Tag parsing failed: " ++ m)

/-! The `serviceConfig` request object (src/index.js:206-355). -/

/-- The `primaryContainer.awsLogsConfiguration` object. -/
structure AwsLogsConfiguration where
  logGroup : Option String := none
  logStreamPrefix : Option String := none

/-- The `primaryContainer.repositoryCredentials` object. -/
structure RepositoryCredentials where
  credentialsParameter : String

/-- The `primaryContainer` object.  `environment`, `secrets` and `command`
hold whatever `JSON.parse` produced (the action performs no shape check). -/
structure PrimaryContainer where
  image : String
  containerPort : Option JSNum := none
  environment : Option Json := none
  secrets : Option Json := none
  command : Option Json := none
  awsLogsConfiguration : Option AwsLogsConfiguration := none
  repositoryCredentials : Option RepositoryCredentials := none

/-- The `networkConfiguration` object. -/
structure NetworkConfiguration where
  subnets : List String
  securityGroups : Option (List String) := none

/-- The `scalingTarget` object. -/
structure ScalingTarget where
  minTaskCount : Option JSNum := none
  maxTaskCount : Option JSNum := none
  autoScalingMetric : Option String := none
  autoScalingTargetValue : Option JSNum := none

/-- The full `serviceConfig` object passed to the create/update command. -/
structure ServiceConfig where
  executionRoleArn : String
  infrastructureRoleArn : String
  primaryContainer : PrimaryContainer
  cpu : Option String := none
  memory : Option String := none
  taskRoleArn : Option String := none
  networkConfiguration : Option NetworkConfiguration := none
  serviceName : String
  cluster : Option String := none
  healthCheckPath : Option String := none
  tags : Option (List Json) := none
  scalingTarget : Option ScalingTarget := none

/-- All action inputs.  `core.getInput` returns `""` for an input that is
absent from the workflow file, so absence and the empty string coincide. -/
structure Inputs where
  serviceName : String := ""
  image : String := ""
  executionRoleArn : String := ""
  infrastructureRoleArn : String := ""
  cluster : String := ""
  containerPort : String := ""
  environmentVariables : String := ""
  secrets : String := ""
  command : String := ""
  logGroup : String := ""
  logStreamPrefix : String := ""
  repositoryCredentials : String := ""
  tags : String := ""
  cpu : String := ""
  memory : String := ""
  taskRoleArn : String := ""
  subnets : String := ""
  securityGroups : String := ""
  healthCheckPath : String := ""
  minTaskCount : String := ""
  maxTaskCount : String := ""
  autoScalingMetric : String := ""
  autoScalingTargetValue : String := ""

/-- A JSON-typed optional input: blank yields an omitted field, otherwise the
input must parse, with the failure message naming the offending field
(src/index.js:220-245). -/
def jsonOpt (field : String) (s : String) : Except String (Option Json) :=
  if isBlank s then .ok none
  else
    match jsonParse s with
    | .ok j => .ok (some j)
    | .error m => .error ("Invalid " ++ field ++ " JSON: " ++ m)

/-- Assembly of `awsLogsConfiguration` (src/index.js:248-258). -/
def awsLogsOf (logGroup logStreamPrefix : String) : Option AwsLogsConfiguration :=
  if !isBlank logGroup || !isBlank logStreamPrefix then
    some { logGroup := opt logGroup, logStreamPrefix := opt logStreamPrefix }
  else none

/-- Shape of the assembled `primaryContainer` given the three parsed JSON
inputs (src/index.js:210-265). -/
def assemblePC (i : Inputs) (env sec cmd : Option Json) : PrimaryContainer :=
  { image := i.image
    containerPort :=
      if isBlank i.containerPort then none else some (jsParseInt i.containerPort)
    environment := env
    secrets := sec
    command := cmd
    awsLogsConfiguration := awsLogsOf i.logGroup i.logStreamPrefix
    repositoryCredentials :=
      if isBlank i.repositoryCredentials then none
      else some ⟨i.repositoryCredentials⟩ }

/-- Assembly of `primaryContainer` (src/index.js:210-265). -/
def primaryContainerOf (i : Inputs) : Except String PrimaryContainer :=
  match jsonOpt "environment-variables" i.environmentVariables with
  | .error e => .error e
  | .ok env =>
    match jsonOpt "secrets" i.secrets with
    | .error e => .error e
    | .ok sec =>
      match jsonOpt "command" i.command with
      | .error e => .error e
      | .ok cmd => .ok (assemblePC i env sec cmd)

/-- Comma-separated list entries: split on `,`, trim, drop empties
(src/index.js:282,289). -/
def splitEntries (s : String) : List String :=
  ((jsSplit ',' s).map jsTrim).filter (· ≠ "")

/-- Assembly of `networkConfiguration` (src/index.js:280-295): present only when
`subnets` is non-blank and yields at least one entry; `securityGroups` is
attached only then, and only when it too yields at least one entry. -/
def networkConfigOf (subnets securityGroups : String) : Option NetworkConfiguration :=
  if isBlank subnets then none
  else if (splitEntries subnets).length > 0 then
    some { subnets := splitEntries subnets
           securityGroups :=
             if !isBlank securityGroups then
               if (splitEntries securityGroups).length > 0 then
                 some (splitEntries securityGroups)
               else none
             else none }
  else none

/-- The `cluster` field (src/index.js:121,300-302): the input defaults to
`"default"` via `||`, and the field is included only when the resulting
name differs from `"default"`. -/
def clusterFieldOf (cluster : String) : Option String :=
  if jsOr cluster "default" ≠ "default" then some (jsOr cluster "default") else none

/-- Assembly of `scalingTarget` (src/index.js:332-355). -/
def scalingTargetOf (minT maxT metric target : String) : Option ScalingTarget :=
  if !isBlank minT || !isBlank maxT || !isBlank metric || !isBlank target then
    some { minTaskCount := if isBlank minT then none else some (jsParseInt minT)
           maxTaskCount := if isBlank maxT then none else some (jsParseInt maxT)
           autoScalingMetric := opt metric
           autoScalingTargetValue :=
             if isBlank target then none else some (jsParseFloat target) }
  else none

/-- Shape of the assembled `serviceConfig` given the parsed container and
tags fields (src/index.js:206-355). -/
def assembleConfig (i : Inputs) (pc : PrimaryContainer) (tagsField : Option (List Json)) :
    ServiceConfig :=
  { executionRoleArn := i.executionRoleArn
    infrastructureRoleArn := i.infrastructureRoleArn
    primaryContainer := pc
    cpu := opt i.cpu
    memory := opt i.memory
    taskRoleArn := opt i.taskRoleArn
    networkConfiguration := networkConfigOf i.subnets i.securityGroups
    serviceName := i.serviceName
    cluster := clusterFieldOf i.cluster
    healthCheckPath := opt i.healthCheckPath
    tags := tagsField
    scalingTarget := scalingTargetOf i.minTaskCount i.maxTaskCount
      i.autoScalingMetric i.autoScalingTargetValue }

/-- The whole `serviceConfig` construction (src/index.js:206-355). -/
def buildServiceConfig (i : Inputs) : Except String ServiceConfig :=
  match primaryContainerOf i with
  | .error e => .error e
  | .ok pc =>
    match tagsFieldOf i.tags with
    | .error e => .error e
    | .ok tagsField => .ok (assembleConfig i pc tagsField)

/-! Remote interaction model.

Responses of the ECS endpoint are scripted.  Each constructor of `RemoteCall`
records one SDK `send`; the `tagResource`/`untagResource` constructors are part
of the call alphabet (the ECS API offers them) so that theorems can state
whether the action ever issues them. -/

/-- A named error thrown by an SDK call (`error.name`, `error.message`). -/
structure JsError where
  name : String := "Error"
  message : String
deriving DecidableEq, Repr

/-- One element of a `DescribeServices` response (`services[i]`).  The `tags`
field is part of the API response shape; the action never reads it. -/
structure SvcRecord where
  serviceArn : Option String := none
  status : Option String := none
  tags : List Tag := []
deriving DecidableEq, Repr

/-- A `DescribeServices` response. -/
structure DescribeServicesResp where
  services : Option (List SvcRecord) := none
deriving DecidableEq, Repr

/-- The service-existence check (src/index.js:168-197): exists iff the
response carries at least one service record and the first record's status is
not `INACTIVE`; a `ServiceNotFoundException` or `ClusterNotFoundException` is
caught and yields `false`; any other error propagates. -/
def checkServiceExists (resp : Except JsError DescribeServicesResp) : Except JsError Bool :=
  match resp with
  | .ok r =>
    match r.services with
    | some (service :: _) => .ok (decide (service.status ≠ some "INACTIVE"))
    | _ => .ok false
  | .error e =>
    if e.name = "ServiceNotFoundException" ∨ e.name = "ClusterNotFoundException" then .ok false
    else .error e

/-- Account-id extraction from the execution role ARN (src/index.js:155-161):
split on `:`, require at least five segments, take the segment at index 4. -/
def accountIdOf (executionRoleArn : String) : Except String String :=
  let arnParts := jsSplit ':' executionRoleArn
  if arnParts.length < 5 then
    .error ("Invalid execution-role-arn format: " ++ executionRoleArn)
  else .ok (arnParts.getD 4 "")

/-- Service ARN construction (src/index.js:165). -/
def buildServiceArn (region accountId clusterName serviceName : String) : String :=
  "arn:aws:ecs:" ++ region ++ ":" ++ accountId ++ ":service/" ++ clusterName ++ "/" ++ serviceName

/-- The `service` object of a create/update response. -/
structure DispatchService where
  serviceArn : Option String := none
deriving DecidableEq, Repr

/-- A create/update response. -/
structure DispatchResp where
  service : Option DispatchService := none
deriving DecidableEq, Repr

/-- Error translation around the create/update call (src/index.js:387-398). -/
def translateDispatchError (clusterName : String) (e : JsError) : String :=
  if e.name = "AccessDeniedException" then
    "Access denied: " ++ e.message ++
      ". Please check that the IAM roles have the necessary permissions for ECS Express Mode operations."
  else if e.name = "InvalidParameterException" then
    "Invalid parameter: " ++ e.message ++ ". Please check your input values."
  else if e.name = "ClusterNotFoundException" then
    "Cluster not found: " ++ clusterName ++ ". Please check the cluster name and region."
  else e.message

/-! Stabilization poller (src/index.js:431-559). -/

/-- The `service.status` object of a `DescribeExpressGatewayService` response. -/
structure SvcStatus where
  statusCode : Option String := none
deriving DecidableEq, Repr

/-- One ingress path. -/
structure IngressPath where
  endpoint : Option String := none
deriving DecidableEq, Repr

/-- One active configuration. -/
structure ActiveConfiguration where
  ingressPaths : Option (List IngressPath) := none
deriving DecidableEq, Repr

/-- The `service` object of a `DescribeExpressGatewayService` response. -/
structure ExpressService where
  serviceArn : Option String := none
  status : Option SvcStatus := none
  cluster : Option String := none
  activeConfigurations : Option (List ActiveConfiguration) := none
deriving DecidableEq, Repr

/-- A `DescribeExpressGatewayService` response. -/
structure DescribeExpressResp where
  service : Option ExpressService := none
deriving DecidableEq, Repr

/-- One element of a `ListServiceDeployments` response. -/
structure DeploymentRef where
  serviceDeploymentArn : Option String := none
deriving DecidableEq, Repr

/-- A `ListServiceDeployments` response. -/
structure ListDeploymentsResp where
  serviceDeployments : Option (List DeploymentRef) := none
deriving DecidableEq, Repr

/-- One element of a `DescribeServiceDeployments` response. -/
structure DeploymentRecord where
  serviceDeploymentArn : Option String := none
  status : Option String := none
deriving DecidableEq, Repr

/-- A `DescribeServiceDeployments` response. -/
structure DescribeDeploymentsResp where
  serviceDeployments : Option (List DeploymentRecord) := none
deriving DecidableEq, Repr

/-- The scripted remote behaviour for one iteration of the polling loop:
the clock reading at the loop head and the responses the three queries would
receive on this tick (each is consulted only if the control flow reaches the
corresponding call). -/
structure Tick where
  now : Nat
  describe : Except JsError DescribeExpressResp
  list : Except JsError ListDeploymentsResp := .ok {}
  describeDeploy : Except JsError DescribeDeploymentsResp := .ok {}

/-- The alphabet of remote calls the trace can record. -/
inductive RemoteCall where
  | describeServices (cluster : String) (services : List String)
  | createService (config : ServiceConfig)
  | updateService (serviceArn : String) (config : ServiceConfig)
  | describeExpressService (serviceArn : String)
  | listServiceDeployments (cluster service : String) (createdAfter : Nat)
  | describeServiceDeployments (serviceDeploymentArns : List String)
  | tagResource (resourceArn : String) (tags : List Tag)
  | untagResource (resourceArn : String) (tagKeys : List String)

/-- Is this call a tag mutation (`TagResource`/`UntagResource`)? -/
def isTagMutationCall : RemoteCall → Bool
  | .tagResource _ _ => true
  | .untagResource _ _ => true
  | _ => false

/-- Endpoint extraction on success (src/index.js:531-541): first ingress path
of the first active configuration; the output is set only when the endpoint is
truthy (a non-empty string). -/
def extractEndpoint (service : ExpressService) : Option String :=
  match service.activeConfigurations with
  | some (config :: _) =>
    (match config.ingressPaths with
     | some (path :: _) =>
       (match path.endpoint with
        | some e => if e ≠ "" then some e else none
        | none => none)
     | _ => none)
  | _ => none

/-- The outcome of the `try` body of one loop iteration. -/
inductive TickStep where
  | thrown (msg : String)
  | stable (endpointOut : Option String)
  | fallThrough

/-- The deployment-ARN location phase (src/index.js:478-507): when no
deployment is pinned yet, issue `ListServiceDeployments` (its error is
swallowed by the inner `catch` with only a warning) and pin the first returned
deployment's ARN, if any. -/
def listPhaseOf (serviceArn : String) (deployStart : Nat) (service : ExpressService)
    (da : Option String) (t : Tick) : Option String × List RemoteCall :=
  match da with
  | some _ => (da, [])
  | none =>
    let callL : RemoteCall :=
      .listServiceDeployments (jsOr (service.cluster.getD "") "default")
        serviceArn deployStart
    match t.list with
    | .error _ => (none, [callL])
    | .ok lresp =>
      match lresp.serviceDeployments with
      | some (d :: _) => (d.serviceDeploymentArn, [callL])
      | _ => (none, [callL])

/-- The body of one polling iteration (src/index.js:448-547), from the
describe call up to but excluding the `catch`.  Returns the possibly-updated
pinned deployment ARN, the calls issued, and how the body ended. -/
def tickBody (serviceArn : String) (deployStart : Nat) (da : Option String) (t : Tick) :
    Option String × List RemoteCall × TickStep :=
  let callD : RemoteCall := .describeExpressService serviceArn
  match t.describe with
  | .error e => (da, [callD], .thrown e.message)
  | .ok resp =>
    match resp.service with
    | none => (da, [callD], .fallThrough)
    | some service =>
      let statusCode := service.status.bind (·.statusCode)
      if statusCode = some "INACTIVE" ∨ statusCode = some "DRAINING" then
        (da, [callD], .thrown ("Service entered " ++ statusCode.getD "" ++ " state"))
      else if statusCode = some "ACTIVE" then
        let listPhase : Option String × List RemoteCall :=
          listPhaseOf serviceArn deployStart service da t
        match listPhase.1 with
        | some arn =>
          let callDD : RemoteCall := .describeServiceDeployments [arn]
          let trace := callD :: listPhase.2 ++ [callDD]
          match t.describeDeploy with
          | .error e => (some arn, trace, .thrown e.message)
          | .ok dresp =>
            match dresp.serviceDeployments with
            | some (deployment :: _) =>
              let dstatus := deployment.status
              if dstatus = some "FAILED" ∨ dstatus = some "STOPPED" then
                (some arn, trace, .thrown ("Deployment " ++ arn ++ " " ++ dstatus.getD ""))
              else if dstatus = some "SUCCESSFUL" then
                (some arn, trace, .stable (extractEndpoint service))
              else (some arn, trace, .fallThrough)
            | _ => (some arn, trace, .fallThrough)
        | none => (none, callD :: listPhase.2, .fallThrough)
      else (da, [callD], .fallThrough)

/-- The wall-clock ceiling: `maxWaitMinutes * 60 * 1000` with
`maxWaitMinutes = 15` (src/index.js:433-435). -/
def maxWaitMs : Nat := 15 * 60 * 1000

/-- The warning emitted when the ceiling is exceeded (src/index.js:444). -/
def timeoutWarning : String :=
  "Deployment is taking longer than 15 minutes. The deployment will continue in the background."

/-- The rethrow test of the outer `catch` (src/index.js:550): an error
escaping the loop body is fatal exactly when its message contains `entered`,
`FAILED` or `STOPPED`. -/
def msgFatal (msg : String) : Bool :=
  strIncludes msg "entered" || strIncludes msg "FAILED" || strIncludes msg "STOPPED"

/-- How `waitForServiceStable` resolved. -/
inductive PollResult where
  | stable (endpointOut : Option String)
  | failed (msg : String)
  | timedOut (warning : String)
  | scriptEnded (deploymentArn : Option String)
deriving DecidableEq, Repr

/-- The polling loop of `waitForServiceStable` (src/index.js:441-558) over a
scripted list of ticks.  At each loop head the elapsed time is checked first;
exceeding the ceiling emits a warning and breaks (the function then returns
normally).  An error escaping the body is rethrown — failing the run — exactly
when its message contains `entered`, `FAILED` or `STOPPED`; any other error is
logged as a warning and the loop retries.  `scriptEnded` marks a run whose
script is too short to resolve the loop (a model artifact, not a behaviour of
the code). -/
def pollLoop (startTime : Nat) (serviceArn : String) (deployStart : Nat) :
    Option String → List Tick → PollResult × List RemoteCall
  | da, [] => (.scriptEnded da, [])
  | da, t :: rest =>
    if t.now - startTime > maxWaitMs then (.timedOut timeoutWarning, [])
    else
      let (da1, calls, step) := tickBody serviceArn deployStart da t
      match step with
      | .stable ep => (.stable ep, calls)
      | .thrown msg =>
        if msgFatal msg then
          (.failed msg, calls)
        else
          let (r, cs) := pollLoop startTime serviceArn deployStart da1 rest
          (r, calls ++ cs)
      | .fallThrough =>
        let (r, cs) := pollLoop startTime serviceArn deployStart da1 rest
        (r, calls ++ cs)

/-! The whole `run` (src/index.js:80-418). -/

/-- The scripted remote behaviour of one invocation. -/
structure Script where
  describeServices : Except JsError DescribeServicesResp
  dispatch : Except JsError DispatchResp
  deployStart : Nat := 0
  pollStart : Nat := 0
  ticks : List Tick := []

/-- The terminal result of `run`: success (the promise resolves without
`core.setFailed`), failure with the message passed to `core.setFailed`, or a
script too short to resolve the polling loop. -/
inductive RunResult where
  | success
  | failed (msg : String)
  | scriptEnded
deriving DecidableEq, Repr

/-- Everything observable about one invocation: the trace of remote calls, the
`core.setOutput` pairs in order, the warnings, how the poller resolved (when
it ran), and the terminal result. -/
structure RunOutcome where
  trace : List RemoteCall := []
  outputs : List (String × String) := []
  warnings : List String := []
  pollResult : Option PollResult := none
  result : RunResult

/-- The `endpoint` output contributed by a stabilized service
(src/index.js:536-540). -/
def endpointOutputs : Option String → List (String × String)
  | some e => [("endpoint", e)]
  | none => []

/-- How `run` finishes once the dispatch succeeded, as a function of the
poller's resolution (src/index.js:411-417 around `waitForServiceStable`):
`stable` resolves the promise and adds the `endpoint` output when present;
a rethrown poll error reaches the outer `catch` and fails the run; a timeout
leaves only a warning and the run still resolves successfully. -/
def finishRun (baseTrace : List RemoteCall) (arnOutputs : List (String × String))
    (poll : PollResult × List RemoteCall) : RunOutcome :=
  let trace := baseTrace ++ poll.2
  match poll.1 with
  | .stable ep =>
    { trace := trace, outputs := arnOutputs ++ endpointOutputs ep
      pollResult := some (.stable ep), result := .success }
  | .failed msg =>
    { trace := trace, outputs := arnOutputs
      pollResult := some (.failed msg), result := .failed msg }
  | .timedOut w =>
    { trace := trace, outputs := arnOutputs, warnings := [w]
      pollResult := some (.timedOut w), result := .success }
  | .scriptEnded da =>
    { trace := trace, outputs := arnOutputs
      pollResult := some (.scriptEnded da), result := .scriptEnded }

/-- Model of `run` (src/index.js:80-418): validate the four required inputs, construct
the service ARN, check existence, build `serviceConfig`, dispatch create or
update (the update guard `serviceExists && serviceArn` collapses to
`serviceExists` because the constructed ARN is never the empty string), emit
the `service-arn` output, then poll.  A poll timeout leaves the result
successful; only a rethrown poll error fails the run. -/
def runModel (region : String) (i : Inputs) (s : Script) : RunOutcome :=
  if isBlank i.serviceName then
    { result := .failed "Input required and not supplied: service-name" }
  else if isBlank i.image then
    { result := .failed "Input required and not supplied: image" }
  else if isBlank i.executionRoleArn then
    { result := .failed "Input required and not supplied: execution-role-arn" }
  else if isBlank i.infrastructureRoleArn then
    { result := .failed "Input required and not supplied: infrastructure-role-arn" }
  else
    let clusterName := jsOr i.cluster "default"
    match accountIdOf i.executionRoleArn with
    | .error m => { result := .failed m }
    | .ok accountId =>
      let serviceArn := buildServiceArn region accountId clusterName i.serviceName
      let callDS : RemoteCall := .describeServices clusterName [i.serviceName]
      match checkServiceExists s.describeServices with
      | .error e => { trace := [callDS], result := .failed e.message }
      | .ok serviceExists =>
        match buildServiceConfig i with
        | .error m => { trace := [callDS], result := .failed m }
        | .ok serviceConfig =>
          let dispatchCall : RemoteCall :=
            if serviceExists then .updateService serviceArn serviceConfig
            else .createService serviceConfig
          match s.dispatch with
          | .error e =>
            { trace := [callDS, dispatchCall]
              result := .failed (translateDispatchError clusterName e) }
          | .ok resp =>
            let finalServiceArn := jsOr ((resp.service.bind (·.serviceArn)).getD "") serviceArn
            let arnOutputs :=
              if finalServiceArn ≠ "" then [("service-arn", finalServiceArn)] else []
            finishRun [callDS, dispatchCall] arnOutputs
              (pollLoop s.pollStart finalServiceArn s.deployStart none s.ticks)

/-! Concrete fixtures used by witnesses and counterexamples. -/

/-- A baseline valid input assignment (the four required inputs set). -/
def fixInputs : Inputs :=
  { serviceName := "my-service"
    image := "123456789012.dkr.ecr.us-east-1.amazonaws.com/my-app:latest"
    executionRoleArn := "arn:aws:iam::123456789012:role/ecsTaskExecutionRole"
    infrastructureRoleArn := "arn:aws:iam::123456789012:role/ecsInfrastructureRole" }

/-- The ARN `run` constructs for `fixInputs` in region `us-east-1`. -/
def fixArn : String := "arn:aws:ecs:us-east-1:123456789012:service/default/my-service"

/-- A deployment ARN used in scripted responses. -/
def fixDeployArn : String :=
  "arn:aws:ecs:us-east-1:123456789012:service-deployment/default/my-service/abc123"

/-- An endpoint URL used in scripted responses. -/
def fixEndpoint : String := "http://my-service-alb-123.us-east-1.elb.amazonaws.com"

/-- An ACTIVE scripted service carrying an ingress endpoint. -/
def fixService : ExpressService :=
  { serviceArn := some fixArn
    status := some { statusCode := some "ACTIVE" }
    cluster := some "default"
    activeConfigurations := some [{ ingressPaths := some [{ endpoint := some fixEndpoint }] }] }

/-- A tick on which the service is ACTIVE and its deployment SUCCESSFUL. -/
def fixSuccessTick : Tick :=
  { now := 0
    describe := .ok { service := some fixService }
    list := .ok { serviceDeployments := some [{ serviceDeploymentArn := some fixDeployArn }] }
    describeDeploy := .ok
      { serviceDeployments :=
          some [{ serviceDeploymentArn := some fixDeployArn, status := some "SUCCESSFUL" }] } }

/-- A script for a fully successful create-path invocation. -/
def fixCreateScript : Script :=
  { describeServices := .ok { services := some [] }
    dispatch := .ok { service := some { serviceArn := some fixArn } }
    ticks := [fixSuccessTick] }

/-- Inputs requesting desired tags `B=2` and `C=3` in multiline format. -/
def fixTagInputs : Inputs := { fixInputs with tags := "B=2\nC=3" }

/-- A script for a successful update-path invocation against an existing
ACTIVE service whose current remote tags are `A=1` and `B=2`. -/
def fixUpdateScript : Script :=
  { describeServices := .ok
      { services :=
          some [{ serviceArn := some fixArn, status := some "ACTIVE",
                  tags := [⟨"A", "1"⟩, ⟨"B", "2"⟩] }] }
    dispatch := .ok { service := some { serviceArn := some fixArn } }
    ticks := [fixSuccessTick] }

/-- A tick observed after the wall-clock ceiling has elapsed. -/
def fixLateTick : Tick := { now := 900001, describe := .ok {} }

/-- A create-path script whose only tick arrives after the ceiling. -/
def fixTimeoutScript : Script :=
  { describeServices := .ok { services := some [] }
    dispatch := .ok { service := some { serviceArn := some fixArn } }
    ticks := [fixLateTick] }

/-- The baseline inputs with a blank `service-name`. -/
def fixBlankNameInputs : Inputs := { fixInputs with serviceName := "" }

/-- A tick on which the service reports lifecycle status `INACTIVE`. -/
def fixInactiveTick : Tick :=
  { now := 0, describe := .ok { service := some { status := some { statusCode := some "INACTIVE" } } } }

/-- A tick on which the describe query itself fails with a transient error
whose message happens to contain the substring `STOPPED`. -/
def fixStoppedErrTick : Tick :=
  { now := 0, describe := .error { name := "ThrottlingException", message := "Rate exceeded, request STOPPED" } }

/-- The baseline inputs with `cluster` explicitly provided as `default`. -/
def fixClusterInputs : Inputs := { fixInputs with cluster := "default" }

/-- The baseline inputs with a blank (whitespace-only) `tags` input. -/
def fixBlankTagsInputs : Inputs := { fixInputs with tags := " " }

/-- The baseline inputs with security groups supplied but subnets blank. -/
def fixSGInputs : Inputs :=
  { fixInputs with securityGroups := "sg-0123456789abcdef0", subnets := "" }

/-- The `serviceConfig` the builder produces for `fixInputs` (and for the
variants whose extra inputs the builder drops entirely). -/
def fixBaseConfig : ServiceConfig :=
  { executionRoleArn := "arn:aws:iam::123456789012:role/ecsTaskExecutionRole"
    infrastructureRoleArn := "arn:aws:iam::123456789012:role/ecsInfrastructureRole"
    primaryContainer := { image := "123456789012.dkr.ecr.us-east-1.amazonaws.com/my-app:latest" }
    serviceName := "my-service" }

/-- The `serviceConfig` the builder produces for `fixTagInputs`. -/
def fixTagConfig : ServiceConfig :=
  { fixBaseConfig with tags := some [tagJson ⟨"B", "2"⟩, tagJson ⟨"C", "3"⟩] }

/-- An input assignment providing most optional fields. -/
def fixRichInputs : Inputs :=
  { fixInputs with
    containerPort := "8080"
    cpu := "512"
    memory := "1024"
    taskRoleArn := "arn:aws:iam::123456789012:role/taskRole"
    subnets := "subnet-1, subnet-2"
    securityGroups := "sg-1"
    healthCheckPath := "/health"
    minTaskCount := "1"
    maxTaskCount := "10"
    autoScalingMetric := "AVERAGE_CPU"
    autoScalingTargetValue := "70" }

/-- The `serviceConfig` the builder produces for `fixRichInputs`. -/
def fixRichConfig : ServiceConfig :=
  { executionRoleArn := "arn:aws:iam::123456789012:role/ecsTaskExecutionRole"
    infrastructureRoleArn := "arn:aws:iam::123456789012:role/ecsInfrastructureRole"
    primaryContainer :=
      { image := "123456789012.dkr.ecr.us-east-1.amazonaws.com/my-app:latest"
        containerPort := some (.num 8080) }
    cpu := some "512"
    memory := some "1024"
    taskRoleArn := some "arn:aws:iam::123456789012:role/taskRole"
    networkConfiguration :=
      some { subnets := ["subnet-1", "subnet-2"], securityGroups := some ["sg-1"] }
    serviceName := "my-service"
    healthCheckPath := some "/health"
    scalingTarget := some
      { minTaskCount := some (.num 1), maxTaskCount := some (.num 10)
        autoScalingMetric := some "AVERAGE_CPU", autoScalingTargetValue := some (.num 70) } }

/-! Predicates spelling out the field-presence behaviour of the builder,
used by the claim about optional-field handling. -/

/-- Every optional field whose source input is blank is omitted entirely from
the built specification. -/
def buildOmitsBlank (i : Inputs) (cfg : ServiceConfig) : Prop :=
  (isBlank i.containerPort = true → cfg.primaryContainer.containerPort = none)
  ∧ (isBlank i.environmentVariables = true → cfg.primaryContainer.environment = none)
  ∧ (isBlank i.secrets = true → cfg.primaryContainer.secrets = none)
  ∧ (isBlank i.command = true → cfg.primaryContainer.command = none)
  ∧ (isBlank i.logGroup = true → isBlank i.logStreamPrefix = true →
      cfg.primaryContainer.awsLogsConfiguration = none)
  ∧ (isBlank i.repositoryCredentials = true → cfg.primaryContainer.repositoryCredentials = none)
  ∧ (isBlank i.cpu = true → cfg.cpu = none)
  ∧ (isBlank i.memory = true → cfg.memory = none)
  ∧ (isBlank i.taskRoleArn = true → cfg.taskRoleArn = none)
  ∧ (isBlank i.subnets = true → cfg.networkConfiguration = none)
  ∧ (isBlank i.healthCheckPath = true → cfg.healthCheckPath = none)
  ∧ (isBlank i.tags = true → cfg.tags = none)
  ∧ (isBlank i.minTaskCount = true → isBlank i.maxTaskCount = true →
      isBlank i.autoScalingMetric = true → isBlank i.autoScalingTargetValue = true →
      cfg.scalingTarget = none)
  ∧ (i.cluster = "" → cfg.cluster = none)

/-- Every provided optional field lands in the built specification with the
coercions the source applies — except for the cases the builder drops:
`cluster` equal to `default`, network fields whose comma-split entry lists are
empty, and security groups without usable subnets. -/
def buildRoundTrips (i : Inputs) (cfg : ServiceConfig) : Prop :=
  (isBlank i.containerPort = false →
    cfg.primaryContainer.containerPort = some (jsParseInt i.containerPort))
  ∧ (isBlank i.environmentVariables = false →
      ∃ j, jsonParse i.environmentVariables = .ok j ∧ cfg.primaryContainer.environment = some j)
  ∧ (isBlank i.secrets = false →
      ∃ j, jsonParse i.secrets = .ok j ∧ cfg.primaryContainer.secrets = some j)
  ∧ (isBlank i.command = false →
      ∃ j, jsonParse i.command = .ok j ∧ cfg.primaryContainer.command = some j)
  ∧ ((isBlank i.logGroup = false ∨ isBlank i.logStreamPrefix = false) →
      cfg.primaryContainer.awsLogsConfiguration =
        some { logGroup := opt i.logGroup, logStreamPrefix := opt ( i.logStreamPrefix) })
  ∧ (isBlank i.repositoryCredentials = false →
      cfg.primaryContainer.repositoryCredentials = some ⟨i.repositoryCredentials⟩)
  ∧ (isBlank i.cpu = false → cfg.cpu = some i.cpu)
  ∧ (isBlank i.memory = false → cfg.memory = some i.memory)
  ∧ (isBlank i.taskRoleArn = false → cfg.taskRoleArn = some i.taskRoleArn)
  ∧ (isBlank i.healthCheckPath = false → cfg.healthCheckPath = some i.healthCheckPath)
  ∧ (isBlank i.subnets = false → splitEntries i.subnets ≠ [] →
      cfg.networkConfiguration = some
        { subnets := splitEntries i.subnets
          securityGroups :=
            if isBlank i.securityGroups = false ∧ splitEntries i.securityGroups ≠ []
            then some (splitEntries i.securityGroups) else none })
  ∧ (i.cluster ≠ "" → i.cluster ≠ "default" → cfg.cluster = some i.cluster)
  ∧ (i.cluster = "default" → cfg.cluster = none)
  ∧ (isBlank i.minTaskCount = false →
      ∃ st, cfg.scalingTarget = some st ∧ st.minTaskCount = some (jsParseInt i.minTaskCount))
  ∧ (isBlank i.maxTaskCount = false →
      ∃ st, cfg.scalingTarget = some st ∧ st.maxTaskCount = some (jsParseInt i.maxTaskCount))
  ∧ (isBlank i.autoScalingMetric = false →
      ∃ st, cfg.scalingTarget = some st ∧ st.autoScalingMetric = some i.autoScalingMetric)
  ∧ (isBlank i.autoScalingTargetValue = false →
      ∃ st, cfg.scalingTarget = some st ∧
        st.autoScalingTargetValue = some (jsParseFloat i.autoScalingTargetValue))

/-! Helper lemmas. -/

theorem build_fields {i : Inputs} {cfg : ServiceConfig} (h : buildServiceConfig i = .ok cfg) :
    ∃ pc tagsField, primaryContainerOf i = .ok pc ∧ tagsFieldOf i.tags = .ok tagsField ∧
      cfg = assembleConfig i pc tagsField := by
  unfold buildServiceConfig at h
  cases hpc : primaryContainerOf i with
  | error e => rw [hpc] at h; exact Except.noConfusion h
  | ok pc =>
    rw [hpc] at h
    cases ht : tagsFieldOf i.tags with
    | error e => rw [ht] at h; exact Except.noConfusion h
    | ok tf =>
      rw [ht] at h
      injection h with h
      exact ⟨pc, tf, rfl, rfl, h.symm⟩

theorem pc_fields {i : Inputs} {pc : PrimaryContainer} (h : primaryContainerOf i = .ok pc) :
    ∃ env sec cmd,
      jsonOpt "environment-variables" i.environmentVariables = .ok env ∧
      jsonOpt "secrets" i.secrets = .ok sec ∧
      jsonOpt "command" i.command = .ok cmd ∧
      pc = assemblePC i env sec cmd := by
  unfold primaryContainerOf at h
  cases he : jsonOpt "environment-variables" i.environmentVariables with
  | error e => rw [he] at h; exact Except.noConfusion h
  | ok env =>
    rw [he] at h
    cases hs : jsonOpt "secrets" i.secrets with
    | error e => rw [hs] at h; exact Except.noConfusion h
    | ok sec =>
      rw [hs] at h
      cases hc : jsonOpt "command" i.command with
      | error e => rw [hc] at h; exact Except.noConfusion h
      | ok cmd =>
        rw [hc] at h
        injection h with h
        exact ⟨env, sec, cmd, rfl, rfl, rfl, h.symm⟩

/-- C6: the Existence Resolver classifies `exists = true` exactly when the
describe response returns a service record whose lifecycle status is not the
terminal removed status `INACTIVE` (a present-but-INACTIVE record is treated
like an absent one); a `ServiceNotFoundException` or
`ClusterNotFoundException` is caught and yields `exists = false`; any other
remote error propagates unchanged. -/
theorem C6_existence_classification (resp : Except JsError DescribeServicesResp) :
    (checkServiceExists resp = .ok true ↔
      ∃ r svc rest, resp = .ok r ∧ r.services = some (svc :: rest) ∧
        svc.status ≠ some "INACTIVE")
    ∧ (∀ e : JsError, resp = .error e →
        ((e.name = "ServiceNotFoundException" ∨ e.name = "ClusterNotFoundException") →
          checkServiceExists resp = .ok false)
        ∧ (e.name ≠ "ServiceNotFoundException" → e.name ≠ "ClusterNotFoundException" →
          checkServiceExists resp = .error e)) := by
  constructor
  · constructor
    · intro h
      cases resp with
      | error e =>
        simp only [checkServiceExists] at h
        split at h
        · exact absurd h (by simp)
        · exact Except.noConfusion h
      | ok r =>
        cases hs : r.services with
        | none => simp [checkServiceExists, hs] at h
        | some l =>
          cases l with
          | nil => simp [checkServiceExists, hs] at h
          | cons svc rest =>
            refine ⟨r, svc, rest, rfl, hs, ?_⟩
            simpa [checkServiceExists, hs] using h
    · rintro ⟨r, svc, rest, rfl, hs, hst⟩
      simp [checkServiceExists, hs, hst]
  · rintro e rfl
    constructor
    · intro hn
      simp only [checkServiceExists]
      rw [if_pos hn]
    · intro h1 h2
      simp only [checkServiceExists]
      rw [if_neg (not_or.mpr ⟨h1, h2⟩)]

/-- C6 witness: a `ServiceNotFoundException` yields `exists = false`, and a
record with status `ACTIVE` yields `exists = true`. -/
theorem C6_existence_classification_witness :
    checkServiceExists (.error { name := "ServiceNotFoundException", message := "nope" }) =
      .ok false ∧
    checkServiceExists (.ok { services := some [{ status := some "ACTIVE" }] }) = .ok true := by
  constructor
  · exact ((C6_existence_classification
      (.error { name := "ServiceNotFoundException", message := "nope" })).2 _ rfl).1
      (Or.inl rfl)
  · exact (C6_existence_classification
      (.ok { services := some [{ status := some "ACTIVE" }] })).1.mpr
      ⟨_, _, _, rfl, rfl, by simp⟩

/-- C7: for all valid inputs (an execution-role identifier with at least five
colon-delimited segments), the account id is the segment at index 4 and the
constructed service identity is exactly the literal concatenation
`arn:aws:ecs:<region>:<accountId>:service/<cluster>/<serviceName>`; the
construction is a pure function of its inputs. -/
theorem C7_service_arn_construction (region executionRoleArn cluster serviceName : String)
    (h : 5 ≤ (jsSplit ':' executionRoleArn).length) :
    accountIdOf executionRoleArn = .ok ((jsSplit ':' executionRoleArn).getD 4 "") ∧
    ∀ accountId : String,
      buildServiceArn region accountId (jsOr cluster "default") serviceName =
        "arn:aws:ecs:" ++ region ++ ":" ++ accountId ++ ":service/" ++
          jsOr cluster "default" ++ "/" ++ serviceName := by
  constructor
  · unfold accountIdOf
    rw [if_neg (by omega)]
  · intro accountId
    rfl

/-- C7 witness: the fixture execution role ARN splits into six segments and
index 4 is the account id. -/
theorem C7_service_arn_construction_witness :
    accountIdOf "arn:aws:iam::123456789012:role/ecsTaskExecutionRole" =
      .ok ((jsSplit ':' "arn:aws:iam::123456789012:role/ecsTaskExecutionRole").getD 4 "") ∧
    ∀ accountId : String,
      buildServiceArn "us-east-1" accountId (jsOr "" "default") "my-service" =
        "arn:aws:ecs:" ++ "us-east-1" ++ ":" ++ accountId ++ ":service/" ++
          jsOr "" "default" ++ "/" ++ "my-service" :=
  C7_service_arn_construction "us-east-1" _ "" "my-service" (by decide)

/-- C10: when the security-groups input is non-blank but the subnets input
yields no non-empty comma-separated entry, the built specification carries no
`networkConfiguration` at all — the supplied security groups are silently
dropped rather than included or rejected. -/
theorem C10_security_groups_dropped (i : Inputs) (cfg : ServiceConfig)
    (hb : buildServiceConfig i = .ok cfg)
    (_hsg : isBlank i.securityGroups = false)
    (hsub : splitEntries i.subnets = []) :
    cfg.networkConfiguration = none := by
  obtain ⟨pc, tf, hpc, ht, rfl⟩ := build_fields hb
  show networkConfigOf i.subnets i.securityGroups = none
  unfold networkConfigOf
  by_cases hbk : isBlank i.subnets = true
  · rw [if_pos hbk]
  · rw [if_neg hbk]
    simp [hsub]

/-- C10 witness: security groups provided, subnets blank — the builder
succeeds and omits `networkConfiguration`. -/
theorem C10_security_groups_dropped_witness :
    buildServiceConfig fixSGInputs = .ok fixBaseConfig ∧
    fixBaseConfig.networkConfiguration = none :=
  ⟨by rfl, C10_security_groups_dropped fixSGInputs fixBaseConfig (by rfl)
    (by decide) (by decide)⟩

/-- C1 (amended): a blank `service-name` makes the invocation fail with
`Input required and not supplied: service-name` before any remote call is
made — the code validates `service-name` as a required input, so the original
claim's blank-name create path does not exist (refuted by
`C1_counterexample`). -/
theorem C1_blank_service_name_fails (region : String) (i : Inputs) (s : Script)
    (h : isBlank i.serviceName = true) :
    runModel region i s =
      { trace := [], outputs := [], warnings := [], pollResult := none,
        result := .failed "Input required and not supplied: service-name" } := by
  unfold runModel
  rw [if_pos h]

/-- C1 witness: the concrete blank-name run fails with the validation
message and an empty remote-call trace. -/
theorem C1_blank_service_name_fails_witness :
    runModel "us-east-1" fixBlankNameInputs fixCreateScript =
      { trace := [], outputs := [], warnings := [], pollResult := none,
        result := .failed "Input required and not supplied: service-name" } :=
  C1_blank_service_name_fails "us-east-1" fixBlankNameInputs fixCreateScript (by decide)

/-- C1 counterexample: with a blank `service-name` and a script that would
let a create call succeed, the invocation fails (refuting the claim that a
blank service-name does not cause the invocation to fail) and makes zero
remote calls (so no create call is ever issued). -/
theorem C1_counterexample :
    (runModel "us-east-1" fixBlankNameInputs fixCreateScript).result =
      .failed "Input required and not supplied: service-name" ∧
    (runModel "us-east-1" fixBlankNameInputs fixCreateScript).trace = [] :=
  ⟨by rfl, by rfl⟩

theorem finishRun_trace (bt : List RemoteCall) (out : List (String × String))
    (p : PollResult × List RemoteCall) :
    (finishRun bt out p).trace = bt ++ p.2 := by
  cases hp : p.1 <;> simp [finishRun, hp]

theorem runModel_shape (region : String) (i : Inputs) (s : Script) :
    (runModel region i s).pollResult = none ∨
    ∃ bt out p, runModel region i s = finishRun bt out p := by
  unfold runModel
  repeat' split
  all_goals first
    | (left; rfl)
    | (right; exact ⟨_, _, _, rfl⟩)

theorem finishRun_timedOut {bt : List RemoteCall} {out : List (String × String)}
    {p : PollResult × List RemoteCall} {w : String}
    (h : (finishRun bt out p).pollResult = some (.timedOut w)) :
    (finishRun bt out p).result = .success ∧ (finishRun bt out p).warnings = [w] := by
  cases hp : p.1 with
  | stable ep => simp [finishRun, hp] at h
  | failed m => simp [finishRun, hp] at h
  | scriptEnded da => simp [finishRun, hp] at h
  | timedOut w0 =>
    have hw : w0 = w := by simpa [finishRun, hp] using h
    subst hw
    exact ⟨by simp [finishRun, hp], by simp [finishRun, hp]⟩

theorem isTagMutationCall_describeServices (c : String) (s : List String) :
    isTagMutationCall (.describeServices c s) = false := rfl

theorem isTagMutationCall_createService (cfg : ServiceConfig) :
    isTagMutationCall (.createService cfg) = false := rfl

theorem isTagMutationCall_updateService (a : String) (cfg : ServiceConfig) :
    isTagMutationCall (.updateService a cfg) = false := rfl

theorem isTagMutationCall_describeExpressService (a : String) :
    isTagMutationCall (.describeExpressService a) = false := rfl

theorem isTagMutationCall_listServiceDeployments (c s : String) (a : Nat) :
    isTagMutationCall (.listServiceDeployments c s a) = false := rfl

theorem isTagMutationCall_describeServiceDeployments (l : List String) :
    isTagMutationCall (.describeServiceDeployments l) = false := rfl

theorem listPhaseOf_no_tag (arn : String) (d : Nat) (svc : ExpressService)
    (da : Option String) (t : Tick) :
    (((listPhaseOf arn d svc da t).2).all fun c => !(isTagMutationCall c)) = true := by
  cases da with
  | some a => rfl
  | none =>
    cases hl : t.list with
    | error e => simp [listPhaseOf, hl, isTagMutationCall]
    | ok lresp =>
      cases hsd : lresp.serviceDeployments with
      | none => simp [listPhaseOf, hl, hsd, isTagMutationCall]
      | some l =>
        cases l with
        | nil => simp [listPhaseOf, hl, hsd, isTagMutationCall]
        | cons d0 ds => simp [listPhaseOf, hl, hsd, isTagMutationCall]

theorem tickBody_no_tag (arn : String) (d : Nat) (da : Option String) (t : Tick) :
    (((tickBody arn d da t).2.1).all fun c => !(isTagMutationCall c)) = true := by
  cases hd : t.describe with
  | error e => simp [tickBody, hd, isTagMutationCall]
  | ok resp =>
    cases hsv : resp.service with
    | none => simp [tickBody, hd, hsv, isTagMutationCall]
    | some svc =>
      have hlp := listPhaseOf_no_tag arn d svc da t
      by_cases h1 : (svc.status.bind fun st => st.statusCode) = some "INACTIVE" ∨
          (svc.status.bind fun st => st.statusCode) = some "DRAINING"
      · simp [tickBody, hd, hsv, h1, isTagMutationCall]
      · by_cases h2 : (svc.status.bind fun st => st.statusCode) = some "ACTIVE"
        · cases hlp1 : (listPhaseOf arn d svc da t).1 with
          | none =>
            simp [tickBody, hd, hsv, h1, h2, hlp1, List.all_cons, List.all_append,
              isTagMutationCall_describeExpressService,
              isTagMutationCall_describeServiceDeployments, hlp, -List.all_eq_true]
          | some arn2 =>
            cases hdd : t.describeDeploy with
            | error e =>
              simp [tickBody, hd, hsv, h1, h2, hlp1, hdd, List.all_cons, List.all_append,
                isTagMutationCall_describeExpressService,
              isTagMutationCall_describeServiceDeployments, hlp, -List.all_eq_true]
            | ok dresp =>
              cases hsd : dresp.serviceDeployments with
              | none =>
                simp [tickBody, hd, hsv, h1, h2, hlp1, hdd, hsd, List.all_cons,
                  List.all_append, isTagMutationCall_describeExpressService,
                  isTagMutationCall_describeServiceDeployments, hlp, -List.all_eq_true]
              | some l =>
                cases l with
                | nil =>
                  simp [tickBody, hd, hsv, h1, h2, hlp1, hdd, hsd, List.all_cons,
                    List.all_append, isTagMutationCall_describeExpressService,
                  isTagMutationCall_describeServiceDeployments, hlp, -List.all_eq_true]
                | cons dr drs =>
                  by_cases h3 : dr.status = some "FAILED" ∨ dr.status = some "STOPPED"
                  · simp [tickBody, hd, hsv, h1, h2, hlp1, hdd, hsd, h3, List.all_cons,
                      List.all_append, isTagMutationCall_describeExpressService,
                  isTagMutationCall_describeServiceDeployments, hlp, -List.all_eq_true]
                  · by_cases h4 : dr.status = some "SUCCESSFUL"
                    · simp [tickBody, hd, hsv, h1, h2, hlp1, hdd, hsd, h3, h4,
                        List.all_cons, List.all_append,
                        isTagMutationCall_describeExpressService,
                        isTagMutationCall_describeServiceDeployments, hlp,
                        -List.all_eq_true]
                    · simp [tickBody, hd, hsv, h1, h2, hlp1, hdd, hsd, h3, h4,
                        List.all_cons, List.all_append,
                        isTagMutationCall_describeExpressService,
                        isTagMutationCall_describeServiceDeployments, hlp,
                        -List.all_eq_true]
        · simp [tickBody, hd, hsv, h1, h2, isTagMutationCall]

theorem pollLoop_no_tag (startTime : Nat) (arn : String) (d : Nat)
    (ticks : List Tick) : ∀ da : Option String,
    (((pollLoop startTime arn d da ticks).2).all fun c => !(isTagMutationCall c)) = true := by
  induction ticks with
  | nil => intro da; rfl
  | cons t rest ih =>
    intro da
    have htb := tickBody_no_tag arn d da t
    rcases h : tickBody arn d da t with ⟨da1, calls, step⟩
    rw [h] at htb
    simp only at htb
    unfold pollLoop
    rw [h]
    split
    · rfl
    · cases step with
      | stable ep =>
        show ((calls).all fun c => !(isTagMutationCall c)) = true
        exact htb
      | thrown msg =>
        show (((if msgFatal msg = true then (PollResult.failed msg, calls)
            else ((pollLoop startTime arn d da1 rest).1,
              calls ++ (pollLoop startTime arn d da1 rest).2)).2).all
          fun c => !(isTagMutationCall c)) = true
        by_cases hm : msgFatal msg = true
        · rw [if_pos hm]
          exact htb
        · rw [if_neg hm]
          show ((calls ++ (pollLoop startTime arn d da1 rest).2).all
            fun c => !(isTagMutationCall c)) = true
          rw [List.all_append, htb, ih da1]
          rfl
      | fallThrough =>
        show ((calls ++ (pollLoop startTime arn d da1 rest).2).all
          fun c => !(isTagMutationCall c)) = true
        rw [List.all_append, htb, ih da1]
        rfl

/-- C2 (amended): when the elapsed wall-clock time at a poll check point
exceeds the 15-minute ceiling, the poller emits the warning that the
deployment is taking longer and will continue in the background, stops
polling, and the invocation then completes successfully — the timeout is a
warning, not a failure of the invocation (the original claim's
fail-on-timeout behaviour is refuted by `C2_counterexample`). -/
theorem C2_timeout_warns_not_fails :
    (∀ (startTime : Nat) (serviceArn : String) (deployStart : Nat)
        (da : Option String) (t : Tick) (rest : List Tick),
        maxWaitMs < t.now - startTime →
        pollLoop startTime serviceArn deployStart da (t :: rest) =
          (.timedOut timeoutWarning, []))
    ∧ (∀ (region : String) (i : Inputs) (s : Script) (w : String),
        (runModel region i s).pollResult = some (.timedOut w) →
        (runModel region i s).result = .success ∧ (runModel region i s).warnings = [w])
    ∧ strIncludes timeoutWarning "The deployment will continue in the background" = true := by
  refine ⟨?_, ?_, by rfl⟩
  · intro startTime serviceArn deployStart da t rest h
    unfold pollLoop
    rw [if_pos h]
  · intro region i s w h
    rcases runModel_shape region i s with h0 | ⟨bt, out, p, heq⟩
    · rw [h0] at h; exact Option.noConfusion h
    · rw [heq] at h ⊢
      exact finishRun_timedOut h

/-- C2 witness: a tick arriving after the ceiling resolves the poll as a
timeout, and the concrete timed-out run still succeeds. -/
theorem C2_timeout_warns_not_fails_witness :
    pollLoop 0 fixArn 0 none [fixLateTick] = (.timedOut timeoutWarning, []) ∧
    (runModel "us-east-1" fixInputs fixTimeoutScript).result = .success :=
  ⟨C2_timeout_warns_not_fails.1 0 fixArn 0 none fixLateTick [] (by decide),
   (C2_timeout_warns_not_fails.2.1 "us-east-1" fixInputs fixTimeoutScript
     timeoutWarning (by rfl)).1⟩

/-- C2 counterexample: a run whose poll exceeds the ceiling completes with
`result = success` and only a warning — refuting the claim that such an
invocation terminates as a failure. -/
theorem C2_counterexample :
    (runModel "us-east-1" fixInputs fixTimeoutScript).result = .success ∧
    (runModel "us-east-1" fixInputs fixTimeoutScript).warnings = [timeoutWarning] :=
  ⟨by rfl, by rfl⟩

/-- C3 (amended): the action performs no tag reconciliation at all — no
invocation ever issues a `TagResource` or `UntagResource` call; on the update
path it issues a single update call whose payload carries the parsed desired
tags, and the service's current remote tags are never consulted.  For the
claim's example (current tags `A=1, B=2`, desired `B=2, C=3`) the concrete
update-path trace is exactly describe, update (payload tags `B=2, C=3`), and
the three polling calls — with no removal of `A` and no separate addition of
`C` (the claimed removal call is refuted by `C3_counterexample`). -/
theorem C3_no_tag_reconciliation :
    (∀ (region : String) (i : Inputs) (s : Script),
        (((runModel region i s).trace).all fun c => !(isTagMutationCall c)) = true)
    ∧ (runModel "us-east-1" fixTagInputs fixUpdateScript).trace =
        [.describeServices "default" ["my-service"],
         .updateService fixArn fixTagConfig,
         .describeExpressService fixArn,
         .listServiceDeployments "default" fixArn 0,
         .describeServiceDeployments [fixDeployArn]]
    ∧ fixTagConfig.tags = some [tagJson ⟨"B", "2"⟩, tagJson ⟨"C", "3"⟩] := by
  refine ⟨?_, by rfl, by rfl⟩
  intro region i s
  unfold runModel
  repeat' split
  all_goals try rfl
  all_goals
    rw [finishRun_trace, List.all_append, pollLoop_no_tag]
    simp only [List.all_cons, List.all_nil, Bool.and_true]
    rfl

/-- C3 counterexample: on the update path with current remote tags `A=1, B=2`
and desired tags `B=2, C=3`, the run succeeds yet its trace contains no tag
removal (or addition) call — refuting the claim that a removal call for `A`
is issued before an addition call for `C`. -/
theorem C3_counterexample :
    (((runModel "us-east-1" fixTagInputs fixUpdateScript).trace).all
      fun c => !(isTagMutationCall c)) = true ∧
    (runModel "us-east-1" fixTagInputs fixUpdateScript).result = .success :=
  ⟨by rfl, by rfl⟩

theorem msgFatal_append_FAILED (s : String) : msgFatal (s ++ "FAILED") = true := by
  have h : "FAILED".toList <:+: (s ++ "FAILED").toList := by
    rw [show (s ++ "FAILED").toList = s.toList ++ "FAILED".toList from String.data_append ..]
    exact List.IsSuffix.isInfix (List.suffix_append _ _)
  unfold msgFatal strIncludes
  rw [decide_eq_true h]
  simp

/-- C5 (amended): the poller fails a tick exactly when the error escaping the
tick body has a message containing `entered`, `FAILED` or `STOPPED`
(`msgFatal`).  The conclusive failures of the original claim are covered —
(a) service status `INACTIVE` fails immediately, with no further polling and
no further remote calls, and (b) a pinned deployment reporting `FAILED` fails
the poll — and (c) an escaped remote error whose message avoids all three
substrings is only warned about and retried on the next tick.  But (d) any
escaped error whose message happens to contain one of the substrings is also
fatal, so the claimed `if and only if` over conclusive failures does not hold
(refuted by `C5_counterexample`). -/
theorem C5_tick_fatality_classification :
    (∀ (startTime : Nat) (arn : String) (d : Nat) (da : Option String)
        (t : Tick) (rest : List Tick) (svc : ExpressService),
        t.now - startTime ≤ maxWaitMs →
        t.describe = .ok { service := some svc } →
        svc.status.bind (fun st => st.statusCode) = some "INACTIVE" →
        pollLoop startTime arn d da (t :: rest) =
          (.failed "Service entered INACTIVE state", [.describeExpressService arn]))
    ∧ (∀ (startTime : Nat) (arn darn : String) (d : Nat) (t : Tick) (rest : List Tick)
          (svc : ExpressService) (dr : DeploymentRecord) (drs : List DeploymentRecord),
        t.now - startTime ≤ maxWaitMs →
        t.describe = .ok { service := some svc } →
        svc.status.bind (fun st => st.statusCode) = some "ACTIVE" →
        t.describeDeploy = .ok { serviceDeployments := some (dr :: drs) } →
        dr.status = some "FAILED" →
        pollLoop startTime arn d (some darn) (t :: rest) =
          (.failed ("Deployment " ++ darn ++ " " ++ "FAILED"),
           [.describeExpressService arn, .describeServiceDeployments [darn]]))
    ∧ (∀ (startTime : Nat) (arn : String) (d : Nat) (da : Option String)
          (t : Tick) (rest : List Tick) (e : JsError),
        t.now - startTime ≤ maxWaitMs →
        t.describe = .error e →
        msgFatal e.message = false →
        pollLoop startTime arn d da (t :: rest) =
          ((pollLoop startTime arn d da rest).1,
           .describeExpressService arn :: (pollLoop startTime arn d da rest).2))
    ∧ (∀ (startTime : Nat) (arn : String) (d : Nat) (da : Option String)
          (t : Tick) (rest : List Tick) (e : JsError),
        t.now - startTime ≤ maxWaitMs →
        t.describe = .error e →
        msgFatal e.message = true →
        pollLoop startTime arn d da (t :: rest) =
          (.failed e.message, [.describeExpressService arn])) := by
  refine ⟨?_, ?_, ?_, ?_⟩
  · intro startTime arn d da t rest svc h1 h2 h3
    have hbody : tickBody arn d da t =
        (da, [.describeExpressService arn], .thrown "Service entered INACTIVE state") := by
      simp [tickBody, h2, h3]
    rw [pollLoop]
    rw [if_neg (by omega), hbody]
    show (if msgFatal "Service entered INACTIVE state" = true
        then (PollResult.failed "Service entered INACTIVE state",
          [RemoteCall.describeExpressService arn])
        else ((pollLoop startTime arn d da rest).1,
          [RemoteCall.describeExpressService arn] ++ (pollLoop startTime arn d da rest).2))
      = (.failed "Service entered INACTIVE state", [.describeExpressService arn])
    rw [if_pos (by decide)]
  · intro startTime arn darn d t rest svc dr drs h1 h2 h3 h4 h5
    have hbody : tickBody arn d (some darn) t =
        (some darn, [.describeExpressService arn, .describeServiceDeployments [darn]],
         .thrown ("Deployment " ++ darn ++ " " ++ "FAILED")) := by
      simp [tickBody, listPhaseOf, h2, h3, h4, h5]
    rw [pollLoop]
    rw [if_neg (by omega), hbody]
    show (if msgFatal ("Deployment " ++ darn ++ " " ++ "FAILED") = true
        then (PollResult.failed ("Deployment " ++ darn ++ " " ++ "FAILED"),
          [RemoteCall.describeExpressService arn,
           RemoteCall.describeServiceDeployments [darn]])
        else ((pollLoop startTime arn d (some darn) rest).1,
          [RemoteCall.describeExpressService arn,
           RemoteCall.describeServiceDeployments [darn]] ++
            (pollLoop startTime arn d (some darn) rest).2))
      = (.failed ("Deployment " ++ darn ++ " " ++ "FAILED"),
         [.describeExpressService arn, .describeServiceDeployments [darn]])
    rw [if_pos (msgFatal_append_FAILED ("Deployment " ++ darn ++ " "))]
  · intro startTime arn d da t rest e h1 h2 h3
    have hbody : tickBody arn d da t = (da, [.describeExpressService arn], .thrown e.message) := by
      simp [tickBody, h2]
    rw [pollLoop]
    rw [if_neg (by omega), hbody]
    show (if msgFatal e.message = true
        then (PollResult.failed e.message, [RemoteCall.describeExpressService arn])
        else ((pollLoop startTime arn d da rest).1,
          [RemoteCall.describeExpressService arn] ++ (pollLoop startTime arn d da rest).2))
      = ((pollLoop startTime arn d da rest).1,
         .describeExpressService arn :: (pollLoop startTime arn d da rest).2)
    rw [if_neg (by simp [h3])]
    rfl
  · intro startTime arn d da t rest e h1 h2 h3
    have hbody : tickBody arn d da t = (da, [.describeExpressService arn], .thrown e.message) := by
      simp [tickBody, h2]
    rw [pollLoop]
    rw [if_neg (by omega), hbody]
    show (if msgFatal e.message = true
        then (PollResult.failed e.message, [RemoteCall.describeExpressService arn])
        else ((pollLoop startTime arn d da rest).1,
          [RemoteCall.describeExpressService arn] ++ (pollLoop startTime arn d da rest).2))
      = (.failed e.message, [.describeExpressService arn])
    rw [if_pos h3]

/-- C5 witness: an `INACTIVE` tick fails the poll immediately with the
service-state message and only the describe call in its trace. -/
theorem C5_tick_fatality_classification_witness :
    pollLoop 0 fixArn 0 none [fixInactiveTick] =
      (.failed "Service entered INACTIVE state", [.describeExpressService fixArn]) :=
  C5_tick_fatality_classification.1 0 fixArn 0 none fixInactiveTick []
    { status := some { statusCode := some "INACTIVE" } } (by decide) (by rfl) (by rfl)

/-- C5 counterexample: a describe-call error (a throttling failure, not a
service-state or deployment-state observation) whose message happens to
contain the substring `STOPPED` immediately fails the poll — refuting the
claim that every error other than a conclusive failure is logged and
retried. -/
theorem C5_counterexample :
    pollLoop 0 fixArn 0 none [fixStoppedErrTick] =
      (.failed "Rate exceeded, request STOPPED", [.describeExpressService fixArn]) ∧
    msgFatal "Rate exceeded, request STOPPED" = true :=
  ⟨by rfl, by rfl⟩

/-- C4: evaluating the code at a fully successful create-path invocation: the
run succeeds and produces exactly the outputs `service-arn` and `endpoint` —
no `status` output is ever set, although the README documents all three
outputs.  This refutes the claim that every successful invocation produces
`service-arn`, `endpoint`, and `status`. -/
theorem C4_missing_status_output :
    (runModel "us-east-1" fixInputs fixCreateScript).result = .success ∧
    (runModel "us-east-1" fixInputs fixCreateScript).outputs.map Prod.fst =
      ["service-arn", "endpoint"] ∧
    (((runModel "us-east-1" fixInputs fixCreateScript).outputs.map Prod.fst).contains
      "status") = false :=
  ⟨by rfl, by rfl, by rfl⟩

theorem parseTagLines_wf :
    ∀ (lines : List String) (l : List Tag), parseTagLines lines = .ok l →
      ∀ line ∈ lines, jsTrim line ≠ "" →
        (jsTrim line).toList.contains '=' = true ∧
        jsTrim (String.mk ((jsTrim line).toList.takeWhile (fun c => c ≠ '='))) ≠ "" := by
  intro lines
  induction lines with
  | nil => intro l _ line hmem; exact absurd hmem (List.not_mem_nil _)
  | cons hd tl ih =>
    intro l h line hmem hne
    rw [parseTagLines] at h
    rcases List.mem_cons.mp hmem with rfl | hmem'
    · rw [if_neg hne] at h
      by_cases hc : (jsTrim line).toList.contains '=' = true
      · refine ⟨hc, ?_⟩
        rw [if_neg (not_not_intro hc)] at h
        by_cases hk : jsTrim (String.mk ((jsTrim line).toList.takeWhile (fun c => c ≠ '='))) = ""
        · rw [if_pos hk] at h
          exact absurd h (by simp)
        · exact hk
      · rw [if_pos hc] at h
        exact absurd h (by simp)
    · by_cases hb : jsTrim hd = ""
      · rw [if_pos hb] at h
        exact ih l h line hmem' hne
      · rw [if_neg hb] at h
        by_cases hc : (jsTrim hd).toList.contains '=' = true
        · rw [if_neg (not_not_intro hc)] at h
          by_cases hk : jsTrim (String.mk ((jsTrim hd).toList.takeWhile (fun c => c ≠ '='))) = ""
          · rw [if_pos hk] at h
            exact absurd h (by simp)
          · rw [if_neg hk] at h
            cases hrec : parseTagLines tl with
            | error e =>
              rw [hrec] at h
              exact absurd h (by simp [Except.map])
            | ok l2 => exact ih l2 hrec line hmem' hne
        · rw [if_pos hc] at h
          exact absurd h (by simp)

/-- C8 (amended): tag-parsing behaviour — (a) non-blank input whose trim
starts with `[` is parsed as a JSON array and installed (when non-empty) as
the `tags` field; (b) any other non-blank input is parsed line by line as
`key=value`, each tag contributing a `\x7bkey, value\x7d` object; (c) a
successfully parsed multiline block has the separator and a non-empty key on
every non-blank line; (d) a separator-free non-blank line fails with an error
naming that line; and (e) a blank overall input makes both standalone parsers
yield an empty list, but the built specification OMITS the `tags` field for
blank input, exactly as for absent input — blank and absent are
indistinguishable (`core.getInput` returns `""` for both), so the original
claim's blank-means-present-empty-list behaviour does not exist (refuted by
`C8_counterexample`). -/
theorem C8_tag_parsing :
    (∀ (t : String) (xs : List Json),
        isBlank t = false → strStartsWith (jsTrim t) "[" = true →
        jsonParse t = .ok (.arr xs) →
        parseTagsFromJSON t = .ok xs ∧
        tagsFieldOf t = .ok (if 0 < xs.length then some xs else none))
    ∧ (∀ (t : String) (l : List Tag),
        isBlank t = false → strStartsWith (jsTrim t) "[" = false →
        parseTagsFromMultiline t = .ok l →
        tagsFieldOf t = .ok (if 0 < l.length then some (l.map tagJson) else none))
    ∧ (∀ (t : String) (l : List Tag),
        isBlank t = false → parseTagsFromMultiline t = .ok l →
        ∀ line ∈ jsSplit '\n' t, jsTrim line ≠ "" →
          (jsTrim line).toList.contains '=' = true ∧
          jsTrim (String.mk ((jsTrim line).toList.takeWhile (fun c => c ≠ '='))) ≠ "")
    ∧ parseTagsFromMultiline "Environment=Production\nInvalidLine" =
        .error "Invalid tag format: \"InvalidLine\". Expected format: key=value"
    ∧ (∀ t : String, isBlank t = true →
        parseTagsFromJSON t = .ok [] ∧ parseTagsFromMultiline t = .ok [] ∧
        tagsFieldOf t = .ok none) := by
  refine ⟨?_, ?_, ?_, by rfl, ?_⟩
  · intro t xs hb hstart hjson
    have hpj : parseTagsFromJSON t = .ok xs := by
      unfold parseTagsFromJSON
      rw [if_neg (by simp [hb]), hjson]
    refine ⟨hpj, ?_⟩
    unfold tagsFieldOf
    rw [if_neg (by simp [hb]), if_pos hstart, hpj]
  · intro t l hb hstart hml
    unfold tagsFieldOf
    rw [if_neg (by simp [hb]), if_neg (by simp [hstart]), hml]
    simp [Except.map]
  · intro t l hb h
    unfold parseTagsFromMultiline at h
    rw [if_neg (by simp [hb])] at h
    exact parseTagLines_wf _ _ h
  · intro t hb
    refine ⟨?_, ?_, ?_⟩
    · unfold parseTagsFromJSON
      rw [if_pos hb]
    · unfold parseTagsFromMultiline
      rw [if_pos hb]
    · unfold tagsFieldOf
      rw [if_pos hb]

/-- C8 witness: a bracketed input goes through the JSON parser, a `key=value`
block goes through the multiline parser, and a blank input leaves the field
omitted. -/
theorem C8_tag_parsing_witness :
    parseTagsFromJSON "[\"x\"]" = .ok [.str "x"] ∧
    tagsFieldOf "B=2\nC=3" =
      .ok (some [tagJson ⟨"B", "2"⟩, tagJson ⟨"C", "3"⟩]) ∧
    tagsFieldOf " " = .ok none := by
  refine ⟨?_, ?_, ?_⟩
  · exact (C8_tag_parsing.1 "[\"x\"]" [.str "x"] (by decide) (by decide) (by rfl)).1
  · have := C8_tag_parsing.2.1 "B=2\nC=3" [⟨"B", "2"⟩, ⟨"C", "3"⟩]
      (by decide) (by decide) (by rfl)
    simpa using this
  · exact (C8_tag_parsing.2.2.2.2 " " (by decide)).2.2

/-- C8 counterexample: for the blank (whitespace-only) tags input, the
specification omits the `tags` field entirely — it is not present as an empty
list, contrary to the claim that a blank input yields an empty tag list in
the specification distinct from omission. -/
theorem C8_counterexample :
    tagsFieldOf " " = .ok none ∧
    buildServiceConfig fixBlankTagsInputs = .ok fixBaseConfig ∧
    fixBaseConfig.tags = none ∧
    ¬ fixBaseConfig.tags = some [] :=
  ⟨by rfl, by rfl, by rfl, by simp [fixBaseConfig]⟩

theorem opt_blank {s : String} (h : isBlank s = true) : opt s = none := by
  simp [opt, h]

theorem opt_nonblank {s : String} (h : isBlank s = false) : opt s = some s := by
  simp [opt, h]

theorem jsonOpt_blank (f : String) {s : String} (h : isBlank s = true) :
    jsonOpt f s = .ok none := by
  simp [jsonOpt, h]

theorem jsonOpt_ok {f s : String} {jv : Option Json} (hb : isBlank s = false)
    (h : jsonOpt f s = .ok jv) : ∃ j, jsonParse s = .ok j ∧ jv = some j := by
  unfold jsonOpt at h
  rw [if_neg (by simp [hb])] at h
  cases hp : jsonParse s with
  | error m => rw [hp] at h; exact absurd h (by simp)
  | ok j =>
    rw [hp] at h
    injection h with h
    exact ⟨j, rfl, h.symm⟩

theorem awsLogsOf_blank {lg pfx : String} (h1 : isBlank lg = true)
    (h2 : isBlank pfx = true) : awsLogsOf lg pfx = none := by
  simp [awsLogsOf, h1, h2]

theorem awsLogsOf_some {lg pfx : String} (h : isBlank lg = false ∨ isBlank pfx = false) :
    awsLogsOf lg pfx = some { logGroup := opt lg, logStreamPrefix := opt pfx } := by
  rcases h with h | h <;> simp [awsLogsOf, h]

theorem scalingTargetOf_none {a b c d : String} (h1 : isBlank a = true)
    (h2 : isBlank b = true) (h3 : isBlank c = true) (h4 : isBlank d = true) :
    scalingTargetOf a b c d = none := by
  simp [scalingTargetOf, h1, h2, h3, h4]

theorem scalingTargetOf_some {a b c d : String}
    (h : isBlank a = false ∨ isBlank b = false ∨ isBlank c = false ∨ isBlank d = false) :
    scalingTargetOf a b c d = some
      { minTaskCount := if isBlank a = true then none else some (jsParseInt a)
        maxTaskCount := if isBlank b = true then none else some (jsParseInt b)
        autoScalingMetric := opt c
        autoScalingTargetValue :=
          if isBlank d = true then none else some (jsParseFloat d) } := by
  rcases h with h | h | h | h <;> simp [scalingTargetOf, opt, h]

theorem networkConfigOf_blank {sub sg : String} (h : isBlank sub = true) :
    networkConfigOf sub sg = none := by
  simp [networkConfigOf, h]

theorem networkConfigOf_some {sub sg : String} (hb : isBlank sub = false)
    (hne : splitEntries sub ≠ []) :
    networkConfigOf sub sg = some
      { subnets := splitEntries sub
        securityGroups :=
          if isBlank sg = false ∧ splitEntries sg ≠ []
          then some (splitEntries sg) else none } := by
  unfold networkConfigOf
  rw [if_neg (by simp [hb]), if_pos (List.length_pos.mpr hne)]
  have hfield : (if (!isBlank sg) = true then
        (if (splitEntries sg).length > 0 then some (splitEntries sg) else none)
      else none)
      = (if isBlank sg = false ∧ splitEntries sg ≠ []
         then some (splitEntries sg) else none) := by
    by_cases h1 : isBlank sg = false
    · by_cases h2 : splitEntries sg = []
      · simp [h1, h2]
      · simp [h1, h2, List.length_pos.mpr h2]
    · have h1' : isBlank sg = true := by
        revert h1; cases isBlank sg <;> simp
      simp [h1', h1]
  rw [hfield]

theorem clusterFieldOf_other {c : String} (h1 : c ≠ "") (h2 : c ≠ "default") :
    clusterFieldOf c = some c := by
  unfold clusterFieldOf jsOr
  rw [if_neg h1, if_pos h2]

/-- C9 (amended): for every input assignment accepted by the builder, every
optional field whose source is blank is omitted entirely
(`buildOmitsBlank`), and every provided optional field round-trips with the
declared coercions (`buildRoundTrips`) — base-10 integer parsing for
container port and min/max task counts, decimal parsing for the auto-scaling
target value, comma-split-and-trim for subnets and security groups — except
for the cases the code drops: a provided `cluster` equal to `default` is
omitted (refuted as stated by `C9_counterexample`), `networkConfiguration` is
omitted (dropping provided security groups) when subnets yields no entries,
`securityGroups` is omitted when it yields no entries, and `tags` is omitted
when the parsed list is empty. -/
theorem C9_optional_field_handling (i : Inputs) (cfg : ServiceConfig)
    (h : buildServiceConfig i = .ok cfg) :
    buildOmitsBlank i cfg ∧ buildRoundTrips i cfg := by
  obtain ⟨pc, tf, hpc, htf, rfl⟩ := build_fields h
  obtain ⟨env, sec, cmd, he, hs, hc, rfl⟩ := pc_fields hpc
  constructor
  · refine ⟨?_, ?_, ?_, ?_, ?_, ?_, ?_, ?_, ?_, ?_, ?_, ?_, ?_, ?_⟩
    · intro hb; simp [assembleConfig, assemblePC, hb]
    · intro hb
      obtain rfl : env = none := by
        rw [jsonOpt_blank _ hb] at he
        exact (Except.ok.inj he).symm
      simp [assembleConfig, assemblePC]
    · intro hb
      obtain rfl : sec = none := by
        rw [jsonOpt_blank _ hb] at hs
        exact (Except.ok.inj hs).symm
      simp [assembleConfig, assemblePC]
    · intro hb
      obtain rfl : cmd = none := by
        rw [jsonOpt_blank _ hb] at hc
        exact (Except.ok.inj hc).symm
      simp [assembleConfig, assemblePC]
    · intro hb1 hb2; simp [assembleConfig, assemblePC, awsLogsOf_blank hb1 hb2]
    · intro hb; simp [assembleConfig, assemblePC, hb]
    · intro hb; simp [assembleConfig, opt_blank hb]
    · intro hb; simp [assembleConfig, opt_blank hb]
    · intro hb; simp [assembleConfig, opt_blank hb]
    · intro hb; simp [assembleConfig, networkConfigOf_blank hb]
    · intro hb; simp [assembleConfig, opt_blank hb]
    · intro hb
      obtain rfl : tf = none := by
        rw [show tagsFieldOf i.tags = .ok none by unfold tagsFieldOf; rw [if_pos hb]] at htf
        exact (Except.ok.inj htf).symm
      simp [assembleConfig]
    · intro h1 h2 h3 h4; simp [assembleConfig, scalingTargetOf_none h1 h2 h3 h4]
    · intro hb; simp [assembleConfig, clusterFieldOf, jsOr, hb]
  · refine ⟨?_, ?_, ?_, ?_, ?_, ?_, ?_, ?_, ?_, ?_, ?_, ?_, ?_, ?_, ?_, ?_, ?_⟩
    · intro hb; simp [assembleConfig, assemblePC, hb]
    · intro hb
      obtain ⟨j, hj, rfl⟩ := jsonOpt_ok hb he
      exact ⟨j, hj, by simp [assembleConfig, assemblePC]⟩
    · intro hb
      obtain ⟨j, hj, rfl⟩ := jsonOpt_ok hb hs
      exact ⟨j, hj, by simp [assembleConfig, assemblePC]⟩
    · intro hb
      obtain ⟨j, hj, rfl⟩ := jsonOpt_ok hb hc
      exact ⟨j, hj, by simp [assembleConfig, assemblePC]⟩
    · intro hor; simp [assembleConfig, assemblePC, awsLogsOf_some hor]
    · intro hb; simp [assembleConfig, assemblePC, hb]
    · intro hb; simp [assembleConfig, opt_nonblank hb]
    · intro hb; simp [assembleConfig, opt_nonblank hb]
    · intro hb; simp [assembleConfig, opt_nonblank hb]
    · intro hb; simp [assembleConfig, opt_nonblank hb]
    · intro hb hne; simp [assembleConfig, networkConfigOf_some hb hne]
    · intro h1 h2; simp [assembleConfig, clusterFieldOf_other h1 h2]
    · intro hd; simp [assembleConfig, clusterFieldOf, jsOr, hd]
    · intro hb
      refine ⟨{ minTaskCount := if isBlank i.minTaskCount = true then none
                  else some (jsParseInt i.minTaskCount),
                maxTaskCount := if isBlank i.maxTaskCount = true then none
                  else some (jsParseInt i.maxTaskCount),
                autoScalingMetric := opt i.autoScalingMetric,
                autoScalingTargetValue := if isBlank i.autoScalingTargetValue = true then none
                  else some (jsParseFloat i.autoScalingTargetValue) }, ?_, ?_⟩
      · simp [assembleConfig, scalingTargetOf_some (Or.inl hb)]
      · simp [hb]
    · intro hb
      refine ⟨{ minTaskCount := if isBlank i.minTaskCount = true then none
                  else some (jsParseInt i.minTaskCount),
                maxTaskCount := if isBlank i.maxTaskCount = true then none
                  else some (jsParseInt i.maxTaskCount),
                autoScalingMetric := opt i.autoScalingMetric,
                autoScalingTargetValue := if isBlank i.autoScalingTargetValue = true then none
                  else some (jsParseFloat i.autoScalingTargetValue) }, ?_, ?_⟩
      · simp [assembleConfig, scalingTargetOf_some (Or.inr (Or.inl hb))]
      · simp [hb]
    · intro hb
      refine ⟨{ minTaskCount := if isBlank i.minTaskCount = true then none
                  else some (jsParseInt i.minTaskCount),
                maxTaskCount := if isBlank i.maxTaskCount = true then none
                  else some (jsParseInt i.maxTaskCount),
                autoScalingMetric := opt i.autoScalingMetric,
                autoScalingTargetValue := if isBlank i.autoScalingTargetValue = true then none
                  else some (jsParseFloat i.autoScalingTargetValue) }, ?_, ?_⟩
      · simp [assembleConfig, scalingTargetOf_some (Or.inr (Or.inr (Or.inl hb)))]
      · simp [opt, hb]
    · intro hb
      refine ⟨{ minTaskCount := if isBlank i.minTaskCount = true then none
                  else some (jsParseInt i.minTaskCount),
                maxTaskCount := if isBlank i.maxTaskCount = true then none
                  else some (jsParseInt i.maxTaskCount),
                autoScalingMetric := opt i.autoScalingMetric,
                autoScalingTargetValue := if isBlank i.autoScalingTargetValue = true then none
                  else some (jsParseFloat i.autoScalingTargetValue) }, ?_, ?_⟩
      · simp [assembleConfig, scalingTargetOf_some (Or.inr (Or.inr (Or.inr hb)))]
      · simp [hb]

/-- C9 witness: the builder accepts `fixRichInputs` and the omit/round-trip
properties hold of the resulting configuration. -/
theorem C9_optional_field_handling_witness :
    buildOmitsBlank fixRichInputs fixRichConfig ∧
    buildRoundTrips fixRichInputs fixRichConfig :=
  C9_optional_field_handling fixRichInputs fixRichConfig (by rfl)

/-- C9 counterexample: `cluster` is provided (non-blank) as `default`, yet
the built specification omits it — so the claim that every provided optional
field round-trips its value unchanged is false. -/
theorem C9_counterexample :
    fixClusterInputs.cluster = "default" ∧
    buildServiceConfig fixClusterInputs = .ok fixBaseConfig ∧
    fixBaseConfig.cluster = none ∧
    ¬ fixBaseConfig.cluster = some "default" :=
  ⟨by rfl, by rfl, by rfl, by simp [fixBaseConfig]⟩

end EcsExpress
